import Mathlib

/-
Verification of the command-adapter module of an Advent-of-Code template
repository (`src/template/aoc_cli.rs` and `src/template/commands/download.rs`).

The module shells out to an external `aoc` executable.  We embed it shallowly:
the external world is a `Spawner`, a function from the argument list handed to
the child process to either `none` (the spawn failed) or `some o` (the process
ran and finished with captured `Output o`).  The `AOC_YEAR` environment
variable is passed explicitly as an `Option String` (unset = `none`).
-/

namespace AocCli

/-- Modelled from the spec: the repository's `Day` type is defined outside the
sources given here; the spec describes it as an opaque identifier with a
display form used to build file paths and CLI arguments.  We model it as that
display form (what `format!("{day}")` / `day.to_string()` produce). -/
structure Day where
  display : String
deriving DecidableEq

/-- Captured result of a finished child process (`std::process::Output`):
an exit status code plus the captured stream bytes. -/
structure Output where
  status : Int
  stdout : List Nat
  stderr : List Nat
deriving DecidableEq

/-- `ExitStatus::success()`: the process exited with status code zero. -/
def Output.success (o : Output) : Bool := o.status == 0

/-- The error enum `AocCommandError` of `src/template/aoc_cli.rs`. -/
inductive AocCommandError where
  | CommandNotFound
  | CommandNotCallable
  | BadExitStatus (output : Output)
deriving DecidableEq

/-- The `DownloadMode` enum of `src/template/aoc_cli.rs`. -/
inductive DownloadMode where
  | InputOnly
  | PuzzleOnly
  | InputAndPuzzle
deriving DecidableEq

/-- `DownloadMode::modify_args`: starts from `["--overwrite"]` and extends it
with the variant-specific flags and paths. -/
def DownloadMode.modify_args (m : DownloadMode) (input_path puzzle_path : String) :
    List String :=
  let args : List String := ["--overwrite"]
  match m with
  | .InputOnly => args ++ ["--input-only", "--input-file", input_path]
  | .PuzzleOnly => args ++ ["--puzzle-only", "--puzzle-file", puzzle_path]
  | .InputAndPuzzle => args ++ ["--input-file", input_path, "--puzzle-file", puzzle_path]

/-- `DownloadMode::downloads_input`. -/
def DownloadMode.downloads_input : DownloadMode → Bool
  | .InputOnly => true
  | .InputAndPuzzle => true
  | .PuzzleOnly => false

/-- `DownloadMode::downloads_puzzle`. -/
def DownloadMode.downloads_puzzle : DownloadMode → Bool
  | .PuzzleOnly => true
  | .InputAndPuzzle => true
  | .InputOnly => false

/-- The external world as seen through
`Command::new("aoc").args(args).output()`: for a given argument list, either
the spawn fails (`none`) or the process runs to completion with some
`Output`. -/
abbrev Spawner := List String → Option Output

/-- `call_aoc_cli` of `src/template/aoc_cli.rs`: spawn `aoc` with `args`;
a spawn error becomes `CommandNotCallable`, a non-success exit status becomes
`BadExitStatus` carrying the output, a success exit returns the output. -/
def call_aoc_cli (w : Spawner) (args : List String) : Except AocCommandError Output :=
  match w args with
  | none => .error .CommandNotCallable
  | some output => if output.success then .ok output else .error (.BadExitStatus output)

/-- `check` of `src/template/aoc_cli.rs`: spawn `aoc -V`; a spawn error
becomes `CommandNotFound`, any completed process (whatever its exit status)
is discarded and the call succeeds. -/
def check (w : Spawner) : Except AocCommandError Unit :=
  match w ["-V"] with
  | none => .error .CommandNotFound
  | some _ => .ok ()

/-- `get_input_path`: `format!("data/inputs/{day}.txt")`. -/
def get_input_path (day : Day) : String :=
  "data/inputs/" ++ day.display ++ ".txt"

/-- `get_puzzle_path`: `format!("data/puzzles/{day}.md")`. -/
def get_puzzle_path (day : Day) : String :=
  "data/puzzles/" ++ day.display ++ ".md"

/-- Rust's `str::parse::<u16>()` on `s`, as used by `get_year`: an optional
leading `+`, then one or more ASCII digits, value below `2^16`; anything else
fails. -/
def parseU16 (s : String) : Option Nat :=
  let signed := s.toList
  let cs := if signed.head? = some '+' then signed.drop 1 else signed
  if cs ≠ [] ∧ cs.all Char.isDigit then
    let n := cs.foldl (fun acc c => acc * 10 + (c.toNat - 48)) 0
    if n < 65536 then some n else none
  else none

/-- `get_year` of `src/template/aoc_cli.rs`: read the `AOC_YEAR` environment
variable (modelled as the explicit `env` argument); a missing variable or a
value that does not parse as a `u16` yields `none`. -/
def get_year (env : Option String) : Option Nat :=
  match env with
  | some x => parseU16 x
  | none => none

/-- `build_args` of `src/template/aoc_cli.rs`: copy the base flags, push
`--year <value>` when `get_year` resolves, then append
`["--day", day, command]`. -/
def build_args (command : String) (args : List String) (day : Day)
    (env : Option String) : List String :=
  let cmd_args := args
  let cmd_args :=
    match get_year env with
    | some year => cmd_args ++ ["--year", toString year]
    | none => cmd_args
  cmd_args ++ ["--day", day.display, command]

/-- The tokens `build_args` inserts for the year override: `--year <value>`
when `get_year` resolves, nothing otherwise. -/
def yearTokens (env : Option String) : List String :=
  match get_year env with
  | some year => ["--year", toString year]
  | none => []

/-- The argument list `read` passes to `call_aoc_cli`. -/
def read_args (day : Day) (env : Option String) : List String :=
  build_args "read"
    ["--description-only", "--puzzle-file", get_puzzle_path day] day env

/-- `read` of `src/template/aoc_cli.rs`. -/
def read (day : Day) (env : Option String) (w : Spawner) :
    Except AocCommandError Output :=
  call_aoc_cli w (read_args day env)

/-- The argument list `download` passes to `call_aoc_cli`. -/
def download_args (day : Day) (m : DownloadMode) (env : Option String) :
    List String :=
  build_args "download"
    (m.modify_args (get_input_path day) (get_puzzle_path day)) day env

/-- `download` of `src/template/aoc_cli.rs` (the success-message printing is
side-effect only and is not modelled). -/
def download (day : Day) (m : DownloadMode) (env : Option String) (w : Spawner) :
    Except AocCommandError Output :=
  call_aoc_cli w (download_args day m env)

/-- The argument list `submit` passes to `call_aoc_cli`: the shared builder
with no base flags, then `part` and `result` pushed at the end. -/
def submit_args (day : Day) (part : Nat) (result : String)
    (env : Option String) : List String :=
  build_args "submit" [] day env ++ [toString part, result]

/-- `submit` of `src/template/aoc_cli.rs`. -/
def submit (day : Day) (part : Nat) (result : String) (env : Option String)
    (w : Spawner) : Except AocCommandError Output :=
  call_aoc_cli w (submit_args day part result env)

/-- `handle` of `src/template/commands/download.rs`: run `check`; on failure
exit with status 1 without downloading; otherwise download with
`InputAndPuzzle`, exiting with status 1 on failure.  The result records the
forced exit status (`none` = fell through normally) and the download mode
used (`none` = `download` never invoked). -/
def handle (day : Day) (env : Option String) (w : Spawner) :
    Option Nat × Option DownloadMode :=
  match check w with
  | .error _ => (some 1, none)
  | .ok _ =>
    match download day .InputAndPuzzle env w with
    | .error _ => (some 1, some .InputAndPuzzle)
    | .ok _ => (none, some .InputAndPuzzle)

/-- C1: for every argument list, `call_aoc_cli` classifies the child process
result: a spawn failure yields `CommandNotCallable`; a non-zero exit status
yields `BadExitStatus` carrying the original captured output; a zero exit
status yields success with the output returned unchanged. -/
theorem call_aoc_cli_classification (w : Spawner) (args : List String) :
    (w args = none →
      call_aoc_cli w args = .error .CommandNotCallable) ∧
    (∀ o, w args = some o → o.status ≠ 0 →
      call_aoc_cli w args = .error (.BadExitStatus o)) ∧
    (∀ o, w args = some o → o.status = 0 →
      call_aoc_cli w args = .ok o) := by
  refine ⟨fun h => ?_, fun o h hs => ?_, fun o h hs => ?_⟩
  · simp [call_aoc_cli, h]
  · simp [call_aoc_cli, h, Output.success, hs]
  · simp [call_aoc_cli, h, Output.success, hs]

/-- Witness for C1 at concrete spawn results. -/
theorem call_aoc_cli_classification_witness :
    call_aoc_cli (fun _ => none) ["a"] = .error .CommandNotCallable ∧
    call_aoc_cli (fun _ => some ⟨2, [], []⟩) ["a"] =
      .error (.BadExitStatus ⟨2, [], []⟩) ∧
    call_aoc_cli (fun _ => some ⟨0, [7], [8]⟩) ["a"] = .ok ⟨0, [7], [8]⟩ :=
  ⟨(call_aoc_cli_classification (fun _ => none) ["a"]).1 rfl,
   (call_aoc_cli_classification (fun _ => some ⟨2, [], []⟩) ["a"]).2.1
     ⟨2, [], []⟩ rfl (by decide),
   (call_aoc_cli_classification (fun _ => some ⟨0, [7], [8]⟩) ["a"]).2.2
     ⟨0, [7], [8]⟩ rfl rfl⟩

/-- `build_args` splits as the base flags, then the year-override tokens,
then `--day <day>` and the command name. -/
theorem build_args_decomp (command : String) (args : List String) (day : Day)
    (env : Option String) :
    build_args command args day env =
      args ++ yearTokens env ++ ["--day", day.display, command] := by
  unfold build_args yearTokens
  cases get_year env <;> simp

/-- C2: for every command name, base flag list, day and environment,
`build_args` produces exactly the base flags, then the year-override tokens
(`--year <value>` only when a year resolves, nothing otherwise), then
`--day <day>`, and the command name as the final token. -/
theorem build_args_layout (command : String) (args : List String) (day : Day)
    (env : Option String) :
    build_args command args day env =
      args ++ yearTokens env ++ ["--day", day.display, command] ∧
    (build_args command args day env).getLast? = some command := by
  refine ⟨build_args_decomp command args day env, ?_⟩
  rw [build_args_decomp command args day env]
  rw [show args ++ yearTokens env ++ ["--day", day.display, command] =
    (args ++ yearTokens env ++ ["--day", day.display]) ++ [command] by simp]
  simp

/-- C3: `submit` builds its arguments from the shared builder with an empty
base flag list, then appends `part` and `result` as the two trailing tokens
after the command name; in particular `submit(day=5, part=1, result="42")`
produces a sequence ending in `submit 1 42`. -/
theorem submit_args_shape (day : Day) (part : Nat) (result : String)
    (env : Option String) :
    submit_args day part result env =
      build_args "submit" [] day env ++ [toString part, result] ∧
    (∃ front, submit_args day part result env =
      front ++ ["submit", toString part, result]) ∧
    submit_args ⟨"5"⟩ 1 "42" none = ["--day", "5", "submit", "1", "42"] := by
  refine ⟨rfl, ⟨yearTokens env ++ ["--day", day.display], ?_⟩, by decide⟩
  have h := build_args_decomp "submit" [] day env
  simp [submit_args, h]

/-- C4: year override resolution in `build_args`: an unset `AOC_YEAR` appends
no `--year` token; a set value that does not parse as a 16-bit unsigned
integer appends no `--year` token and raises no error; the value `"2023"`
appends exactly the tokens `--year 2023` once. -/
theorem year_resolution (command : String) (args : List String) (day : Day) :
    build_args command args day none =
      args ++ ["--day", day.display, command] ∧
    (∀ s, parseU16 s = none →
      build_args command args day (some s) =
        args ++ ["--day", day.display, command]) ∧
    build_args command args day (some "2023") =
      args ++ ["--year", "2023", "--day", day.display, command] := by
  refine ⟨by simp [build_args, get_year], fun s hs => ?_, ?_⟩
  · simp [build_args, get_year, hs]
  · simp [build_args, get_year,
      show parseU16 "2023" = some 2023 from by decide]
    decide

/-- Witness for C4 at a concrete unparseable year value. -/
theorem year_resolution_witness :
    build_args "download" [] ⟨"3"⟩ (some "not-a-year") =
      ["--day", "3", "download"] :=
  (year_resolution "download" [] ⟨"3"⟩).2.1 "not-a-year" (by decide)

/-- C5: `check` fails with `CommandNotFound` exactly when spawning the tool
with its version flag fails; when the spawn succeeds it returns success
regardless of the probed tool's exit status. -/
theorem check_classification (w : Spawner) :
    (w ["-V"] = none → check w = .error .CommandNotFound) ∧
    (∀ o, w ["-V"] = some o → check w = .ok ()) := by
  refine ⟨fun h => ?_, fun o h => ?_⟩ <;> simp [check, h]

/-- Witness for C5: a failing spawn, and a spawn that completes with a
non-zero exit status. -/
theorem check_classification_witness :
    check (fun _ => none) = .error .CommandNotFound ∧
    check (fun _ => some ⟨3, [], []⟩) = .ok () :=
  ⟨(check_classification (fun _ => none)).1 rfl,
   (check_classification (fun _ => some ⟨3, [], []⟩)).2 ⟨3, [], []⟩ rfl⟩

/-- C6 (counterexample): the claim fails when the caller-supplied input path
is itself the literal token `--puzzle-file`: `InputOnly.modify_args` then
does include `--puzzle-file`. -/
theorem modify_args_input_only_cex :
    ¬ ("--input-only" ∈ DownloadMode.InputOnly.modify_args "--puzzle-file" "p" ∧
       (∃ front back,
         DownloadMode.InputOnly.modify_args "--puzzle-file" "p" =
           front ++ ["--input-file", "--puzzle-file"] ++ back) ∧
       "--puzzle-file" ∉ DownloadMode.InputOnly.modify_args "--puzzle-file" "p") := by
  rintro ⟨-, -, h⟩
  exact h (by decide)

/-- C6 (amended): for every puzzle path, and every input path other than the
literal token `--puzzle-file`, `InputOnly.modify_args` includes
`--input-only` and `--input-file` followed by the input path, and never
includes `--puzzle-file`. -/
theorem modify_args_input_only (ip pp : String) (h : ip ≠ "--puzzle-file") :
    "--input-only" ∈ DownloadMode.InputOnly.modify_args ip pp ∧
    (∃ front back, DownloadMode.InputOnly.modify_args ip pp =
      front ++ ["--input-file", ip] ++ back) ∧
    "--puzzle-file" ∉ DownloadMode.InputOnly.modify_args ip pp := by
  have e : DownloadMode.InputOnly.modify_args ip pp =
      ["--overwrite", "--input-only", "--input-file", ip] := rfl
  refine ⟨by simp [e], ⟨["--overwrite", "--input-only"], [], by simp [e]⟩, ?_⟩
  intro hmem
  rw [e] at hmem
  simp only [List.mem_cons, List.not_mem_nil, or_false] at hmem
  rcases hmem with h1 | h1 | h1 | h1
  · exact absurd h1 (by decide)
  · exact absurd h1 (by decide)
  · exact absurd h1 (by decide)
  · exact h h1.symm

/-- Witness for C6 at the paths `download` actually uses for day 1. -/
theorem modify_args_input_only_witness :
    "--puzzle-file" ∉
      DownloadMode.InputOnly.modify_args "data/inputs/1.txt" "data/puzzles/1.md" :=
  (modify_args_input_only "data/inputs/1.txt" "data/puzzles/1.md"
    (by decide)).2.2

/-- C7 (counterexample): the claim fails when the caller-supplied puzzle path
is itself the literal token `--input-file`: `PuzzleOnly.modify_args` then
does include `--input-file`. -/
theorem modify_args_puzzle_only_cex :
    ¬ ("--puzzle-only" ∈ DownloadMode.PuzzleOnly.modify_args "i" "--input-file" ∧
       (∃ front back,
         DownloadMode.PuzzleOnly.modify_args "i" "--input-file" =
           front ++ ["--puzzle-file", "--input-file"] ++ back) ∧
       "--input-file" ∉ DownloadMode.PuzzleOnly.modify_args "i" "--input-file") := by
  rintro ⟨-, -, h⟩
  exact h (by decide)

/-- C7 (amended): for every input path, and every puzzle path other than the
literal token `--input-file`, `PuzzleOnly.modify_args` includes
`--puzzle-only` and `--puzzle-file` followed by the puzzle path, and never
includes `--input-file`. -/
theorem modify_args_puzzle_only (ip pp : String) (h : pp ≠ "--input-file") :
    "--puzzle-only" ∈ DownloadMode.PuzzleOnly.modify_args ip pp ∧
    (∃ front back, DownloadMode.PuzzleOnly.modify_args ip pp =
      front ++ ["--puzzle-file", pp] ++ back) ∧
    "--input-file" ∉ DownloadMode.PuzzleOnly.modify_args ip pp := by
  have e : DownloadMode.PuzzleOnly.modify_args ip pp =
      ["--overwrite", "--puzzle-only", "--puzzle-file", pp] := rfl
  refine ⟨by simp [e], ⟨["--overwrite", "--puzzle-only"], [], by simp [e]⟩, ?_⟩
  intro hmem
  rw [e] at hmem
  simp only [List.mem_cons, List.not_mem_nil, or_false] at hmem
  rcases hmem with h1 | h1 | h1 | h1
  · exact absurd h1 (by decide)
  · exact absurd h1 (by decide)
  · exact absurd h1 (by decide)
  · exact h h1.symm

/-- Witness for C7 at the paths `download` actually uses for day 1. -/
theorem modify_args_puzzle_only_witness :
    "--input-file" ∉
      DownloadMode.PuzzleOnly.modify_args "data/inputs/1.txt" "data/puzzles/1.md" :=
  (modify_args_puzzle_only "data/inputs/1.txt" "data/puzzles/1.md"
    (by decide)).2.2

/-- C8 (counterexample): the claim fails when the caller-supplied input path
is itself the literal token `--input-only`: `InputAndPuzzle.modify_args` then
does include an exclusivity flag. -/
theorem modify_args_both_cex :
    ¬ ((∃ front back,
         DownloadMode.InputAndPuzzle.modify_args "--input-only" "p" =
           front ++ ["--input-file", "--input-only"] ++ back) ∧
       (∃ front back,
         DownloadMode.InputAndPuzzle.modify_args "--input-only" "p" =
           front ++ ["--puzzle-file", "p"] ++ back) ∧
       "--input-only" ∉ DownloadMode.InputAndPuzzle.modify_args "--input-only" "p" ∧
       "--puzzle-only" ∉ DownloadMode.InputAndPuzzle.modify_args "--input-only" "p" ∧
       (∀ m : DownloadMode, "--overwrite" ∈ m.modify_args "--input-only" "p")) := by
  rintro ⟨-, -, h, -, -⟩
  exact h (by decide)

/-- C8 (amended): for every input path and puzzle path neither of which is
one of the literal exclusivity tokens `--input-only` / `--puzzle-only`,
`InputAndPuzzle.modify_args` includes both `--input-file <input path>` and
`--puzzle-file <puzzle path>` and neither exclusivity flag; and for all three
mode variants the result includes `--overwrite`. -/
theorem modify_args_both (ip pp : String)
    (hi1 : ip ≠ "--input-only") (hi2 : ip ≠ "--puzzle-only")
    (hp1 : pp ≠ "--input-only") (hp2 : pp ≠ "--puzzle-only") :
    (∃ front back, DownloadMode.InputAndPuzzle.modify_args ip pp =
      front ++ ["--input-file", ip] ++ back) ∧
    (∃ front back, DownloadMode.InputAndPuzzle.modify_args ip pp =
      front ++ ["--puzzle-file", pp] ++ back) ∧
    "--input-only" ∉ DownloadMode.InputAndPuzzle.modify_args ip pp ∧
    "--puzzle-only" ∉ DownloadMode.InputAndPuzzle.modify_args ip pp ∧
    (∀ m : DownloadMode, "--overwrite" ∈ m.modify_args ip pp) := by
  have e : DownloadMode.InputAndPuzzle.modify_args ip pp =
      ["--overwrite", "--input-file", ip, "--puzzle-file", pp] := rfl
  refine ⟨⟨["--overwrite"], ["--puzzle-file", pp], by simp [e]⟩,
    ⟨["--overwrite", "--input-file", ip], [], by simp [e]⟩, ?_, ?_, ?_⟩
  · intro hmem
    rw [e] at hmem
    simp only [List.mem_cons, List.not_mem_nil, or_false] at hmem
    rcases hmem with h1 | h1 | h1 | h1 | h1
    · exact absurd h1 (by decide)
    · exact absurd h1 (by decide)
    · exact hi1 h1.symm
    · exact absurd h1 (by decide)
    · exact hp1 h1.symm
  · intro hmem
    rw [e] at hmem
    simp only [List.mem_cons, List.not_mem_nil, or_false] at hmem
    rcases hmem with h1 | h1 | h1 | h1 | h1
    · exact absurd h1 (by decide)
    · exact absurd h1 (by decide)
    · exact hi2 h1.symm
    · exact absurd h1 (by decide)
    · exact hp2 h1.symm
  · intro m
    cases m <;> simp [DownloadMode.modify_args]

/-- Witness for C8 at the paths `download` actually uses for day 1. -/
theorem modify_args_both_witness :
    "--input-only" ∉
      DownloadMode.InputAndPuzzle.modify_args "data/inputs/1.txt" "data/puzzles/1.md" :=
  (modify_args_both "data/inputs/1.txt" "data/puzzles/1.md"
    (by decide) (by decide) (by decide) (by decide)).2.2.1

/-- C9: for every day, `download` computes the input file path as
`data/inputs/{day}.txt` and the puzzle file path as `data/puzzles/{day}.md`
and hands them to the mode; `read` targets the puzzle file path
`data/puzzles/{day}.md` with a `--description-only` flag in its base
arguments. -/
theorem paths_and_read_targets (day : Day) (env : Option String) :
    get_input_path day = "data/inputs/" ++ day.display ++ ".txt" ∧
    get_puzzle_path day = "data/puzzles/" ++ day.display ++ ".md" ∧
    (∀ m : DownloadMode, download_args day m env =
      build_args "download"
        (m.modify_args ("data/inputs/" ++ day.display ++ ".txt")
          ("data/puzzles/" ++ day.display ++ ".md")) day env) ∧
    (∃ rest, read_args day env =
      "--description-only" :: "--puzzle-file" ::
        ("data/puzzles/" ++ day.display ++ ".md") :: rest) := by
  refine ⟨rfl, rfl, fun m => rfl,
    ⟨yearTokens env ++ ["--day", day.display, "read"], ?_⟩⟩
  have h := build_args_decomp "read"
    ["--description-only", "--puzzle-file", get_puzzle_path day] day env
  simp only [read_args, get_puzzle_path] at h ⊢
  simp [h]

/-- C10: the download command handler first runs `check` and exits with
status 1 on failure (never reaching `download`); when `check` succeeds it
always invokes `download` with the `InputAndPuzzle` mode, and exits with
status 1 exactly when that download fails. -/
theorem download_handle_flow (day : Day) (env : Option String) (w : Spawner) :
    ((∃ e, check w = .error e) → handle day env w = (some 1, none)) ∧
    (check w = .ok () →
      (handle day env w).2 = some DownloadMode.InputAndPuzzle ∧
      ((∃ e, download day .InputAndPuzzle env w = .error e) →
        (handle day env w).1 = some 1) ∧
      (∀ o, download day .InputAndPuzzle env w = .ok o →
        (handle day env w).1 = none)) := by
  constructor
  · rintro ⟨e, he⟩
    simp [handle, he]
  · intro hc
    refine ⟨?_, ?_, ?_⟩
    · cases hd : download day .InputAndPuzzle env w <;> simp [handle, hc, hd]
    · rintro ⟨e, he⟩
      simp [handle, hc, he]
    · intro o ho
      simp [handle, hc, ho]

/-- Witness for C10: a failing `check` spawn, and a fully succeeding run. -/
theorem download_handle_flow_witness :
    handle ⟨"1"⟩ none (fun _ => none) = (some 1, none) ∧
    (handle ⟨"1"⟩ none (fun _ => some ⟨0, [], []⟩)).2 =
      some DownloadMode.InputAndPuzzle ∧
    (handle ⟨"1"⟩ none (fun _ => some ⟨0, [], []⟩)).1 = none :=
  ⟨(download_handle_flow ⟨"1"⟩ none (fun _ => none)).1
     ⟨.CommandNotFound, rfl⟩,
   ((download_handle_flow ⟨"1"⟩ none (fun _ => some ⟨0, [], []⟩)).2 rfl).1,
   ((download_handle_flow ⟨"1"⟩ none (fun _ => some ⟨0, [], []⟩)).2 rfl).2.2
     ⟨0, [], []⟩ rfl⟩

end AocCli
